import Mathlib

/-!
Verification of the remote-sync pipeline of the `project-cli` repository.

The development shallowly embeds the components of the sync pipeline:

* `RateLimiter` (src/projects/sync_queue.py) — sliding-window limiter;
* the sync-queue persistence (`add_to_queue`, `get_next_batch`,
  `mark_processing` / `mark_completed` / `mark_failed`);
* the metrics-cache accessors (`save_remote_metrics`, `get_remote_metrics`,
  `save_pipeline_status`, `update_last_synced` in src/projects/database.py);
* the `RemoteAPI` boundary (src/projects/remote_api.py), with the underlying
  platform SDK modelled as an oracle that may raise;
* `SyncOrchestrator.sync_project` / `process_sync_queue`
  (src/projects/sync_orchestrator.py), embedded twice: once with every
  collaborator modelled as a possibly-raising oracle (exception-flow model),
  and once as a deterministic state-passing function over an explicit
  database state (used for frame and counting properties).

Timestamps are modelled as natural numbers of seconds since the epoch;
Python `int` arithmetic where subtraction may go negative uses `Int`.
Exceptions are modelled with `Except`, where `Exn.github` plays the role of
`GithubException` and `Exn.other` of every other `Exception`.
-/

namespace ProjectCli

/-- An exception value: either a `GithubException` or any other Python
exception, carrying `str(e)`. -/
inductive Exn where
  | github (msg : String)
  | other (msg : String)
deriving DecidableEq, Repr

/-- `str(e)` of a modelled exception. -/
def Exn.msg : Exn → String
  | .github m => m
  | .other m => m

/-- A computation that may raise a modelled exception. -/
abbrev Res (α : Type) := Except Exn α

/-! ## Rate limiter (src/projects/sync_queue.py, class RateLimiter) -/

/-- The `self.limits` dictionary of `RateLimiter.__init__`:
`{'github': {'calls': 5000, 'window': 3600}, 'gitlab': {'calls': 300, 'window': 60}}`.
Returns `(calls, window)`; `none` models a key absent from the dict. -/
def limits (platform : String) : Option (Nat × Nat) :=
  if platform = "github" then some (5000, 3600)
  else if platform = "gitlab" then some (300, 60)
  else none

/-- In-memory state of one `RateLimiter`: the platform name and the
`self.calls` list of request timestamps. -/
structure RateLimiter where
  platform : String
  calls : List Nat
deriving DecidableEq, Repr

/-- `RateLimiter.can_make_request(buffer)`: prune timestamps at or before
`now - window`, then check `len(self.calls) < limit['calls'] - buffer`.
Platforms absent from `limits` always return `True` (and prune nothing).
Returns the boolean together with the limiter state after the in-place
pruning of `self.calls`. -/
def can_make_request (rl : RateLimiter) (now : Nat) (buffer : Nat := 100) :
    Bool × RateLimiter :=
  match limits rl.platform with
  | none => (true, rl)
  | some (q, w) =>
    let pruned := rl.calls.filter (fun (c : Nat) => decide ((c : Int) > (now : Int) - (w : Int)))
    (decide ((pruned.length : Int) < (q : Int) - (buffer : Int)),
     { rl with calls := pruned })

/-- `RateLimiter.record_request()`: append `now` to `self.calls`. -/
def record_request (rl : RateLimiter) (now : Nat) : RateLimiter :=
  { rl with calls := rl.calls ++ [now] }

/-- `min` of a nonempty list of timestamps (Python `min(self.calls)`);
returns `0` on the empty list, which the source never reaches because it
checks `if not self.calls` first. -/
def listMin : List Nat → Nat
  | [] => 0
  | a :: rest => rest.foldl Nat.min a

/-- `RateLimiter.get_reset_time()`: `None` if no calls are recorded,
otherwise `min(self.calls) + window`.  The source reads
`self.limits[self.platform]` without a membership check, so for a platform
absent from `limits` (and a nonempty call list) it raises `KeyError`,
modelled as `Except.error`.  Note that the source does NOT prune
`self.calls` here: the minimum ranges over every recorded timestamp,
whether or not it still lies inside the current window. -/
def get_reset_time (rl : RateLimiter) : Res (Option Nat) :=
  if rl.calls.isEmpty then .ok none
  else
    match limits rl.platform with
    | none => .error (.other "KeyError")
    | some (_, w) => .ok (some (listMin rl.calls + w))

/-- `RateLimiter.get_remaining()`: `999999` for a platform absent from
`limits`; otherwise prune old timestamps, then `limit['calls'] - len(self.calls)`.
Returns the value together with the limiter state after the pruning. -/
def get_remaining (rl : RateLimiter) (now : Nat) : Int × RateLimiter :=
  match limits rl.platform with
  | none => (999999, rl)
  | some (q, w) =>
    let pruned := rl.calls.filter (fun (c : Nat) => decide ((c : Int) > (now : Int) - (w : Int)))
    ((q : Int) - (pruned.length : Int), { rl with calls := pruned })

/-! ## Database rows (src/migrations/001_add_sync_analytics.py schema) -/

/-- A row of the `projects` table, restricted to the columns that the sync
pipeline reads (`get_project_by_id` builds a `Project` whose `name`,
`description`, `language` fields come from these columns; the remaining
presentation columns never influence the sync pipeline's behaviour). -/
structure ProjectRow where
  id : Nat
  name : String
  description : Option String
  language : Option String
deriving DecidableEq, Repr

/-- A row of the `tags` table (project_id, tag). -/
structure TagRow where
  project_id : Nat
  tag : String
deriving DecidableEq, Repr

/-- A row of the `remote_repos` table. -/
structure RemoteRepoRow where
  id : Nat
  project_id : Nat
  platform : String
  owner : String
  repo_name : String
  remote_url : Option String
  default_branch : Option String
  last_synced_at : Option Nat
  sync_enabled : Bool
deriving DecidableEq, Repr

/-- A row of the `remote_metrics_cache` table. -/
structure MetricsRow where
  id : Nat
  remote_repo_id : Nat
  stars : Int
  forks : Int
  watchers : Int
  open_issues : Int
  open_prs : Int
  language : Option String
  size_kb : Int
  license : Option String
  description : Option String
  topics : List String
  created_at : Option Nat
  updated_at : Option Nat
  pushed_at : Option Nat
  cached_at : Option Nat
deriving DecidableEq, Repr

/-- A row of the `pipeline_status` table. -/
structure PipelineRow where
  id : Nat
  remote_repo_id : Nat
  pipeline_name : String
  status : Option String
  branch : Option String
  commit_sha : Option String
  started_at : Option Nat
  completed_at : Option Nat
  url : Option String
  cached_at : Option Nat
deriving DecidableEq, Repr

/-- A row of the `sync_queue` table. -/
structure QueueRow where
  id : Nat
  project_id : Nat
  priority : Int
  requested_at : Nat
  status : String
deriving DecidableEq, Repr

/-- The persisted database state touched by the sync pipeline, with explicit
`AUTOINCREMENT` counters for the tables the pipeline inserts into. -/
structure DBState where
  projects : List ProjectRow
  tags : List TagRow
  remote_repos : List RemoteRepoRow
  metrics_cache : List MetricsRow
  pipeline_status : List PipelineRow
  sync_queue : List QueueRow
  next_metrics_id : Nat
  next_pipeline_id : Nat
  next_queue_id : Nat
deriving DecidableEq, Repr

/-! ## Database accessors (src/projects/database.py) -/

/-- `get_project_by_id(project_id)`: `SELECT ... FROM projects WHERE id = ?`,
`fetchone` (the `id` column is the primary key, so at most one row matches;
`head?` models `fetchone`). -/
def get_project_by_id (db : DBState) (project_id : Nat) : Option ProjectRow :=
  (db.projects.filter (fun p => p.id = project_id)).head?

/-- `get_remote_repo_info(project_id)`: `SELECT ... FROM remote_repos WHERE
project_id = ?`, `fetchone` (the `project_id` column is declared UNIQUE). -/
def get_remote_repo_info (db : DBState) (project_id : Nat) : Option RemoteRepoRow :=
  (db.remote_repos.filter (fun r => r.project_id = project_id)).head?

/-- The loosely-typed metrics dictionary passed to `save_remote_metrics`
(each `metrics.get(key, default)` lookup is an `Option` field; `none` models
an absent key). -/
structure MetricsInput where
  stars : Option Int := none
  forks : Option Int := none
  watchers : Option Int := none
  open_issues : Option Int := none
  open_prs : Option Int := none
  language : Option String := none
  size_kb : Option Int := none
  license : Option String := none
  description : Option String := none
  topics : Option (List String) := none
  created_at : Option Nat := none
  updated_at : Option Nat := none
  pushed_at : Option Nat := none
deriving DecidableEq, Repr

/-- The single `remote_metrics_cache` row inserted by `save_remote_metrics`:
every column value comes from the `metrics` argument (with the source's
`.get(key, default)` defaults), apart from the autoincrement id, the link id
and the `cached_at` column, which the schema defaults to the current
timestamp. -/
def mkMetricsRow (id remote_repo_id : Nat) (m : MetricsInput) (now : Nat) :
    MetricsRow :=
  { id := id
    remote_repo_id := remote_repo_id
    stars := m.stars.getD 0
    forks := m.forks.getD 0
    watchers := m.watchers.getD 0
    open_issues := m.open_issues.getD 0
    open_prs := m.open_prs.getD 0
    language := m.language
    size_kb := m.size_kb.getD 0
    license := m.license
    description := m.description
    topics := m.topics.getD []
    created_at := m.created_at
    updated_at := m.updated_at
    pushed_at := m.pushed_at
    cached_at := some now }

/-- `save_remote_metrics(remote_repo_id, metrics)`: delete every cached row
for the link, insert one fresh row built from `metrics`, return `True`.
(The source's `except` branch returns `False` only when SQLite itself
fails; the model covers the successful path.) -/
def save_remote_metrics (db : DBState) (remote_repo_id : Nat)
    (m : MetricsInput) (now : Nat) : Bool × DBState :=
  let kept := db.metrics_cache.filter (fun r => r.remote_repo_id ≠ remote_repo_id)
  let row := mkMetricsRow db.next_metrics_id remote_repo_id m now
  (true,
   { db with
      metrics_cache := kept ++ [row]
      next_metrics_id := db.next_metrics_id + 1 })

/-- The dictionary returned by `get_remote_metrics` (one field per key of
the dict the source builds from the fetched row). -/
structure MetricsDict where
  stars : Int
  forks : Int
  watchers : Int
  open_issues : Int
  open_prs : Int
  language : Option String
  size_kb : Int
  license : Option String
  description : Option String
  topics : List String
  created_at : Option Nat
  updated_at : Option Nat
  pushed_at : Option Nat
  cached_at : Option Nat
deriving DecidableEq, Repr

/-- The dict `get_remote_metrics` builds from a fetched row. -/
def rowToDict (r : MetricsRow) : MetricsDict :=
  { stars := r.stars, forks := r.forks, watchers := r.watchers
    open_issues := r.open_issues, open_prs := r.open_prs
    language := r.language, size_kb := r.size_kb, license := r.license
    description := r.description, topics := r.topics
    created_at := r.created_at, updated_at := r.updated_at
    pushed_at := r.pushed_at, cached_at := r.cached_at }

/-- `get_remote_metrics(remote_repo_id, ttl_hours=24)`: fetch the (at most
one) cached row for the link; `None` if absent; if `cached_at` is set and
`datetime.now() - cached_at > timedelta(hours=ttl_hours)`, return `None`
(the row is not touched); otherwise return the row's fields as a dict.
A `NULL` `cached_at` skips the TTL check. This function performs no write:
it returns no modified state. -/
def get_remote_metrics (db : DBState) (remote_repo_id : Nat) (now : Nat)
    (ttl_hours : Nat := 24) : Option MetricsDict :=
  match (db.metrics_cache.filter (fun r => r.remote_repo_id = remote_repo_id)).head? with
  | none => none
  | some row =>
    match row.cached_at with
    | some c =>
        if (now : Int) - (c : Int) > (ttl_hours : Int) * 3600 then none
        else some (rowToDict row)
    | none => some (rowToDict row)

/-- The pipeline-status dictionary passed to `save_pipeline_status`
(built by `RemoteAPI.get_latest_workflow_status`, whose dict always carries
these keys). -/
structure WorkflowData where
  name : String
  status : Option String
  conclusion : Option String
  branch : Option String
  commit_sha : Option String
  started_at : Option Nat
  completed_at : Option Nat
  url : Option String
deriving DecidableEq, Repr

/-- `save_pipeline_status(remote_repo_id, pipeline_data)`: append one row to
`pipeline_status` (never replaces) and return `True` on the successful
path. -/
def save_pipeline_status (db : DBState) (remote_repo_id : Nat)
    (wd : WorkflowData) (now : Nat) : Bool × DBState :=
  let row : PipelineRow :=
    { id := db.next_pipeline_id
      remote_repo_id := remote_repo_id
      pipeline_name := wd.name
      status := wd.status
      branch := wd.branch
      commit_sha := wd.commit_sha
      started_at := wd.started_at
      completed_at := wd.completed_at
      url := wd.url
      cached_at := some now }
  (true,
   { db with
      pipeline_status := db.pipeline_status ++ [row]
      next_pipeline_id := db.next_pipeline_id + 1 })

/-- `update_last_synced(remote_repo_id)`: `UPDATE remote_repos SET
last_synced_at = now WHERE id = ?`. -/
def update_last_synced (db : DBState) (remote_repo_id : Nat) (now : Nat) :
    DBState :=
  { db with
      remote_repos := db.remote_repos.map (fun r =>
        if r.id = remote_repo_id then { r with last_synced_at := some now } else r) }

/-- `update_project_from_remote_metadata(project_id, description, language,
topics)`: update the project row's description and language, delete the
project's tags and insert one tag row per topic; returns `True` on the
successful path. -/
def update_project_from_remote_metadata (db : DBState) (project_id : Nat)
    (description language : String) (topics : List String) : Bool × DBState :=
  (true,
   { db with
      projects := db.projects.map (fun p =>
        if p.id = project_id then
          { p with description := some description, language := some language }
        else p)
      tags := db.tags.filter (fun t => t.project_id ≠ project_id)
              ++ topics.map (fun tp => { project_id := project_id, tag := tp }) })

/-! ## Sync queue (src/projects/sync_queue.py, class SyncQueue) -/

/-- The `SyncQueueItem` dataclass of src/projects/sync_queue.py. -/
structure SyncQueueItem where
  id : Nat
  project_id : Nat
  priority : Int
  requested_at : Nat
  status : String
deriving DecidableEq, Repr

/-- In-memory state of a `SyncQueue` object: the `self.rate_limiters`
dictionary, keyed by platform. -/
structure SyncQueueState where
  rate_limiters : List (String × RateLimiter)
deriving DecidableEq, Repr

/-- `SyncQueue._get_rate_limiter(platform)`: get or create the limiter for a
platform; returns the limiter together with the (possibly extended)
dictionary. -/
def getRateLimiterFor (s : SyncQueueState) (platform : String) :
    RateLimiter × SyncQueueState :=
  match s.rate_limiters.find? (fun p => p.1 = platform) with
  | some p => (p.2, s)
  | none =>
    let rl : RateLimiter := { platform := platform, calls := [] }
    (rl, { rate_limiters := s.rate_limiters ++ [(platform, rl)] })

/-- Write a limiter back into the dictionary: in Python the limiter object
is shared, so its in-place mutations (pruning of `self.calls`) are visible
through the dictionary; explicit state passing makes that write-back
explicit. -/
def setRateLimiterFor (s : SyncQueueState) (platform : String)
    (rl : RateLimiter) : SyncQueueState :=
  { rate_limiters := s.rate_limiters.map (fun p =>
      if p.1 = platform then (p.1, rl) else p) }

/-- `SyncQueue.add_to_queue(project_id, priority=5)`: if a `pending` row for
the project exists, return its id without touching the database; otherwise
insert a fresh `pending` row (its `requested_at` defaulting to the current
timestamp) and return `cursor.lastrowid`. -/
def add_to_queue (db : DBState) (project_id : Nat) (priority : Int)
    (now : Nat) : Nat × DBState :=
  match (db.sync_queue.filter (fun q =>
      q.project_id = project_id ∧ q.status = "pending")).head? with
  | some existing => (existing.id, db)
  | none =>
    let row : QueueRow :=
      { id := db.next_queue_id
        project_id := project_id
        priority := priority
        requested_at := now
        status := "pending" }
    (db.next_queue_id,
     { db with
        sync_queue := db.sync_queue ++ [row]
        next_queue_id := db.next_queue_id + 1 })

/-- The `ORDER BY q.priority ASC, q.requested_at ASC` comparison of
`get_next_batch`'s SELECT. -/
def batchLE (a b : QueueRow) : Prop :=
  a.priority < b.priority ∨ (a.priority = b.priority ∧ a.requested_at ≤ b.requested_at)

instance : DecidableRel batchLE := fun a b =>
  decidable_of_iff
    (a.priority < b.priority ∨ (a.priority = b.priority ∧ a.requested_at ≤ b.requested_at))
    Iff.rfl

instance : IsTotal QueueRow batchLE where
  total a b := by
    unfold batchLE
    rcases lt_trichotomy a.priority b.priority with h | h | h
    · exact Or.inl (Or.inl h)
    · rcases Nat.le_total a.requested_at b.requested_at with h2 | h2
      · exact Or.inl (Or.inr ⟨h, h2⟩)
      · exact Or.inr (Or.inr ⟨h.symm, h2⟩)
    · exact Or.inr (Or.inl h)

instance : IsTrans QueueRow batchLE where
  trans a b c hab hbc := by
    unfold batchLE at hab hbc ⊢
    rcases hab with hab | ⟨hab, hab2⟩
    · rcases hbc with hbc | ⟨hbc, _⟩
      · exact Or.inl (hab.trans hbc)
      · exact Or.inl (hbc ▸ hab)
    · rcases hbc with hbc | ⟨hbc, hbc2⟩
      · exact Or.inl (hab ▸ hbc)
      · exact Or.inr ⟨hab.trans hbc, hab2.trans hbc2⟩

/-- The WHERE/JOIN condition of `get_next_batch`'s SELECT: the queue row is
`pending` and joins to a `projects` row and a `remote_repos` row with the
requested platform and `sync_enabled = 1`.  (`projects.id` is a primary key
and `remote_repos.project_id` is UNIQUE, so the join yields each queue row
at most once.) -/
def queueRowMatches (db : DBState) (platform : String) (q : QueueRow) : Bool :=
  q.status = "pending" ∧
  db.projects.any (fun p =>
    p.id = q.project_id ∧
    db.remote_repos.any (fun r =>
      r.project_id = p.id ∧ r.platform = platform ∧ r.sync_enabled))

/-- Build a `SyncQueueItem` from a fetched row (the source parses
`requested_at` back from its ISO string; round-tripping is the identity
here because the model keeps timestamps numeric). -/
def rowToItem (q : QueueRow) : SyncQueueItem :=
  { id := q.id, project_id := q.project_id, priority := q.priority
    requested_at := q.requested_at, status := q.status }

/-- The SELECT of `get_next_batch`: filter by the WHERE/JOIN condition,
sort by `(priority ASC, requested_at ASC)`, apply `LIMIT n`. -/
def selectPendingBatch (db : DBState) (platform : String) (n : Nat) :
    List SyncQueueItem :=
  ((((db.sync_queue.filter (queueRowMatches db platform)).insertionSort
      batchLE).take n).map rowToItem)

/-- `SyncQueue.get_next_batch(platform, batch_size=10)`: consult the rate
limiter (`can_make_request()` with its default buffer of 100); if it says
no, return `[]`; otherwise `fetch_count = min(batch_size, remaining - 100)`;
if `fetch_count <= 0` return `[]`; otherwise run the SELECT with
`LIMIT fetch_count`.  Returns the items together with the updated
`rate_limiters` dictionary (the limiter prunes its call list in place). -/
def get_next_batch (s : SyncQueueState) (db : DBState) (platform : String)
    (now : Nat) (batch_size : Nat := 10) : List SyncQueueItem × SyncQueueState :=
  let rls := getRateLimiterFor s platform
  let cmr := can_make_request rls.1 now
  let s1 := setRateLimiterFor rls.2 platform cmr.2
  if cmr.1 = false then ([], s1)
  else
    let rem := get_remaining cmr.2 now
    let s2 := setRateLimiterFor s1 platform rem.2
    let fetch_count : Int := min (batch_size : Int) (rem.1 - 100)
    if fetch_count ≤ 0 then ([], s2)
    else (selectPendingBatch db platform fetch_count.toNat, s2)

/-- `SyncQueue.mark_processing(queue_id)`. -/
def mark_processing (db : DBState) (queue_id : Nat) : DBState :=
  { db with sync_queue := db.sync_queue.map (fun q =>
      if q.id = queue_id then { q with status := "processing" } else q) }

/-- `SyncQueue.mark_completed(queue_id)`. -/
def mark_completed (db : DBState) (queue_id : Nat) : DBState :=
  { db with sync_queue := db.sync_queue.map (fun q =>
      if q.id = queue_id then { q with status := "completed" } else q) }

/-- `SyncQueue.mark_failed(queue_id)`. -/
def mark_failed (db : DBState) (queue_id : Nat) : DBState :=
  { db with sync_queue := db.sync_queue.map (fun q =>
      if q.id = queue_id then { q with status := "failed" } else q) }

/-! ## Remote API client (src/projects/remote_api.py, class RemoteAPI) -/

/-- The fields of the PyGithub `Repository` object that `get_repo_info`
reads.  `description`, `language`, `homepage` are `Option` because the
source coalesces them with `or ''`; `license` stands for
`repo.license.name if repo.license else None`. -/
structure SdkRepo where
  description : Option String
  stargazers_count : Int
  forks_count : Int
  watchers_count : Int
  open_issues_count : Int
  language : Option String
  size : Int
  default_branch : String
  license : Option String
  created_at : Option Nat
  updated_at : Option Nat
  pushed_at : Option Nat
  homepage : Option String
  archived : Bool
  isPrivate : Bool
deriving DecidableEq, Repr

/-- One workflow run as read off the PyGithub object (`latest.name` may be
`None`, which the source coalesces with `or 'Workflow'`). -/
structure SdkWorkflowRun where
  name : Option String
  status : Option String
  conclusion : Option String
  head_branch : Option String
  head_sha : Option String
  created_at : Option Nat
  updated_at : Option Nat
  html_url : Option String
deriving DecidableEq, Repr

/-- The behaviour of the underlying platform SDK during one `RemoteAPI`
method call: each field is the outcome of the corresponding SDK access and
may raise.  `get_workflow_runs` yields the paginated run list
(`totalCount` = its length, `workflows[0]` = its head). -/
structure SdkBehavior where
  get_repo : Res SdkRepo
  get_topics : Res (List String)
  pulls_totalCount : Res Int
  get_workflow_runs : Res (List SdkWorkflowRun)
deriving Repr

/-- The dictionary `RemoteAPI.get_repo_info` returns on success. -/
structure RepoInfoDict where
  owner : String
  name : String
  description : String
  stars : Int
  forks : Int
  watchers : Int
  open_issues : Int
  language : String
  size_kb : Int
  default_branch : String
  license : Option String
  topics : List String
  created_at : Option Nat
  updated_at : Option Nat
  pushed_at : Option Nat
  homepage : String
  archived : Bool
  isPrivate : Bool
deriving DecidableEq, Repr

/-- `RemoteAPI.get_repo_info(owner, repo_name)`: on the github platform,
fetch the repo (may raise), fetch topics inside an inner `try` that falls
back to `[]`, and build the normalized dict; every exception of the body —
`GithubException` or otherwise — is caught and turned into `None`, and a
platform other than github falls through to the trailing `return None`.
The outer `Res` is the method's own exception channel: the translation of
the two `except` clauses makes it `.ok` on every path. -/
def RemoteAPI.get_repo_info (platform : String) (sdk : SdkBehavior)
    (owner repo_name : String) : Res (Option RepoInfoDict) :=
  let body : Res (Option RepoInfoDict) :=
    if platform = "github" then do
      let repo ← sdk.get_repo
      let topics := match sdk.get_topics with
        | .ok t => t
        | .error _ => []
      pure (some
        { owner := owner
          name := repo_name
          description := repo.description.getD ""
          stars := repo.stargazers_count
          forks := repo.forks_count
          watchers := repo.watchers_count
          open_issues := repo.open_issues_count
          language := repo.language.getD ""
          size_kb := repo.size
          default_branch := repo.default_branch
          license := repo.license
          topics := topics
          created_at := repo.created_at
          updated_at := repo.updated_at
          pushed_at := repo.pushed_at
          homepage := repo.homepage.getD ""
          archived := repo.archived
          isPrivate := repo.isPrivate })
    else pure none
  .ok (match body with
    | .ok v => v
    | .error _ => none)

/-- `RemoteAPI.get_open_prs_count(owner, repo_name)`: on github, fetch the
repo and the open-PR page count; `except Exception: return 0`; a platform
other than github falls through to the trailing `return 0`. -/
def RemoteAPI.get_open_prs_count (platform : String) (sdk : SdkBehavior)
    (_owner _repo_name : String) : Res Int :=
  let body : Res Int :=
    if platform = "github" then do
      let _repo ← sdk.get_repo
      let count ← sdk.pulls_totalCount
      pure count
    else pure 0
  .ok (match body with
    | .ok v => v
    | .error _ => 0)

/-- `RemoteAPI.get_latest_workflow_status(owner, repo_name)`: on github,
fetch the repo and its workflow runs; `None` when `totalCount == 0`,
otherwise the dict built from `workflows[0]`; every exception is caught and
turned into `None`, and a non-github platform falls through to the trailing
`return None`. -/
def RemoteAPI.get_latest_workflow_status (platform : String)
    (sdk : SdkBehavior) (_owner _repo_name : String) :
    Res (Option WorkflowData) :=
  let body : Res (Option WorkflowData) :=
    if platform = "github" then do
      let _repo ← sdk.get_repo
      let runs ← sdk.get_workflow_runs
      match runs.head? with
      | none => pure none
      | some latest =>
        pure (some
          { name := latest.name.getD "Workflow"
            status := latest.status
            conclusion := latest.conclusion
            branch := latest.head_branch
            commit_sha := latest.head_sha
            started_at := latest.created_at
            completed_at := latest.updated_at
            url := latest.html_url })
    else pure none
  .ok (match body with
    | .ok v => v
    | .error _ => none)

/-! ## Sync orchestrator (src/projects/sync_orchestrator.py) -/

/-- The `SyncResult` dataclass.  The `duration_seconds` wall-clock float is
not modelled (it is a measurement of real time, not of program logic); every
other field is carried verbatim. -/
structure SyncResult where
  success : Bool
  project_id : Nat
  project_name : String
  stars : Option Int := none
  forks : Option Int := none
  open_issues : Option Int := none
  open_prs : Option Int := none
  workflow_status : Option String := none
  error : Option String := none
deriving DecidableEq, Repr

/-- A failed `SyncResult` as built by every early-return branch of
`sync_project`. -/
def mkFail (project_id : Nat) (project_name error : String) : SyncResult :=
  { success := false, project_id := project_id, project_name := project_name
    error := some error }

/-- The message built by the two `except` clauses of `sync_project`:
`except GithubException as e` produces `f"GitHub API error: {e}"` and
`except Exception as e` produces `f"Unexpected error: {e}"`. -/
def exnText : Exn → String
  | .github m => "GitHub API error: " ++ m
  | .other m => "Unexpected error: " ++ m

/-- The behaviour of every collaborator `sync_project` calls, in call order;
each call may raise (this is the fault model used to settle the
exception-boundary claim).  `api_init` stands for the
`remote_api.RemoteAPI(platform, token)` constructor, which raises
`ImportError` / `NotImplementedError` / `ValueError` on its failure
branches. -/
structure Collab where
  get_project_by_id : Res (Option ProjectRow)
  get_remote_repo_info : Res (Option RemoteRepoRow)
  get_remote_metrics : Res (Option MetricsDict)
  get_token : Res (Option String)
  api_init : Res Unit
  get_repo_info : Res (Option RepoInfoDict)
  get_open_prs_count : Res Int
  save_remote_metrics : Res Bool
  get_latest_workflow_status : Res (Option WorkflowData)
  save_pipeline_status : Res Bool
  update_project_from_remote_metadata : Res Bool
  update_last_synced : Res Unit

/-- The body of `sync_project`'s `try` block (everything from the
`db.get_remote_repo_info` call to the final successful return), under the
collaborator fault model.  The inner `try` around the workflow fetch is
translated as a caught sub-computation whose failure leaves
`workflow_status = None`. -/
def sync_project_try (c : Collab) (project : ProjectRow) (project_id : Nat)
    (update_metadata force : Bool) : Res SyncResult := do
  let remote_info? ← c.get_remote_repo_info
  match remote_info? with
  | none => return mkFail project_id project.name "Sync not enabled for this project"
  | some remote_info =>
  if remote_info.sync_enabled = false then
    return mkFail project_id project.name "Sync is disabled for this project"
  else do
  let cachedResult? ←
    if force = false then do
      let cached? ← c.get_remote_metrics
      match cached? with
      | some cached =>
        pure (some
          ({ success := true
             project_id := project_id
             project_name := project.name
             stars := some cached.stars
             forks := some cached.forks
             open_issues := some cached.open_issues
             open_prs := some cached.open_prs
             error := some "Using cached data (use --force to refresh)" } : SyncResult))
      | none => pure none
    else pure none
  match cachedResult? with
  | some r => return r
  | none => do
  let token? ← c.get_token
  match token? with
  | none =>
    return mkFail project_id project.name
      ("No " ++ remote_info.platform ++ " token found. Run: projects auth "
        ++ remote_info.platform ++ " --token YOUR_TOKEN")
  | some _ => do
  let _ ← c.api_init
  let repo_info? ← c.get_repo_info
  match repo_info? with
  | none =>
    return mkFail project_id project.name
      ("Repository not found or inaccessible: " ++ remote_info.owner ++ "/"
        ++ remote_info.repo_name)
  | some repo_info => do
  let pr_count ← c.get_open_prs_count
  let saved ← c.save_remote_metrics
  if saved = false then
    return mkFail project_id project.name "Failed to save metrics to cache"
  else do
  let workflow_status : Option String :=
    match (do
      let workflow_data? ← c.get_latest_workflow_status
      match workflow_data? with
      | some workflow_data => do
        let _ ← c.save_pipeline_status
        pure workflow_data.conclusion
      | none => pure none : Res (Option String)) with
    | .ok ws => ws
    | .error _ => none
  let _ ← (if update_metadata then
      do let _ ← c.update_project_from_remote_metadata; pure ()
    else pure ())
  let _ ← c.update_last_synced
  return {
      success := true
      project_id := project_id
      project_name := project.name
      stars := some repo_info.stars
      forks := some repo_info.forks
      open_issues := some repo_info.open_issues
      open_prs := some pr_count
      workflow_status := workflow_status }

/-- The two `except` clauses wrapping the `try` body: a raised exception is
converted into a failed `SyncResult` whose error text is `exnText`. -/
def syncTryHandler (project_id : Nat) (project_name : String) :
    Res SyncResult → SyncResult
  | .ok r => r
  | .error e => mkFail project_id project_name (exnText e)

/-- `SyncOrchestrator.sync_project(project_id, update_metadata=False,
force=False)` under the collaborator fault model.  The
`db.get_project_by_id` call happens BEFORE the `try` block (the `except`
handlers need `project.name`), so an exception raised there propagates to
the caller — modelled by the `.error` passthrough of the first match arm. -/
def sync_projectE (c : Collab) (project_id : Nat)
    (update_metadata force : Bool) : Res SyncResult :=
  match c.get_project_by_id with
  | .error e => .error e
  | .ok none => .ok (mkFail project_id "Unknown" "Project not found")
  | .ok (some project) =>
    .ok (syncTryHandler project_id project.name
          (sync_project_try c project project_id update_metadata force))

/-! ### Deterministic state-passing model

The same `sync_project` control flow, with the database collaborators given
by the honest embeddings over `DBState` above and the remote API given by a
non-raising oracle.  Besides the `SyncResult`, the model returns the final
database state (for frame properties) and the number of `RemoteAPI` method
invocations the call performed (for "zero API calls" and rate-accounting
properties). -/

/-- A non-raising behaviour of the `RemoteAPI` client during one sync:
what each of its three fetch methods would return. -/
structure ApiBehavior where
  get_repo_info : Option RepoInfoDict
  get_open_prs_count : Int
  get_latest_workflow_status : Option WorkflowData
deriving DecidableEq, Repr

/-- The metrics dictionary that `sync_project` passes to
`db.save_remote_metrics`: the dict returned by `api.get_repo_info` with
`repo_info['open_prs'] = pr_count` merged in (every key that
`save_remote_metrics` reads is present). -/
def repoInfoToMetrics (ri : RepoInfoDict) (pr_count : Int) : MetricsInput :=
  { stars := some ri.stars
    forks := some ri.forks
    watchers := some ri.watchers
    open_issues := some ri.open_issues
    open_prs := some pr_count
    language := some ri.language
    size_kb := some ri.size_kb
    license := ri.license
    description := some ri.description
    topics := some ri.topics
    created_at := ri.created_at
    updated_at := ri.updated_at
    pushed_at := ri.pushed_at }

/-- `SyncOrchestrator.sync_project` as a deterministic state-passing
function.  The `RemoteAPI(platform, token)` constructor raises
`NotImplementedError("GitLab support coming soon")` for gitlab and
`ValueError(f"Unsupported platform: {platform}")` otherwise; both are
caught by the orchestrator's `except Exception` clause, which this model
reproduces inline.  The third component of the result counts the `RemoteAPI`
method invocations (`get_repo_info`, `get_open_prs_count`,
`get_latest_workflow_status`). -/
def sync_project (api : ApiBehavior) (tokens : String → Option String)
    (db : DBState) (project_id : Nat) (update_metadata force : Bool)
    (now : Nat) : SyncResult × DBState × Nat :=
  match get_project_by_id db project_id with
  | none => (mkFail project_id "Unknown" "Project not found", db, 0)
  | some project =>
    match get_remote_repo_info db project_id with
    | none =>
      (mkFail project_id project.name "Sync not enabled for this project", db, 0)
    | some remote_info =>
      if remote_info.sync_enabled = false then
        (mkFail project_id project.name "Sync is disabled for this project", db, 0)
      else
        match (if force = false then get_remote_metrics db remote_info.id now 24
               else none) with
        | some cached =>
          ({ success := true
             project_id := project_id
             project_name := project.name
             stars := some cached.stars
             forks := some cached.forks
             open_issues := some cached.open_issues
             open_prs := some cached.open_prs
             error := some "Using cached data (use --force to refresh)" },
           db, 0)
        | none =>
          match tokens remote_info.platform with
          | none =>
            (mkFail project_id project.name
              ("No " ++ remote_info.platform ++ " token found. Run: projects auth "
                ++ remote_info.platform ++ " --token YOUR_TOKEN"), db, 0)
          | some _ =>
            if remote_info.platform ≠ "github" then
              (mkFail project_id project.name
                ("Unexpected error: " ++
                  (if remote_info.platform = "gitlab" then
                    "GitLab support coming soon"
                   else "Unsupported platform: " ++ remote_info.platform)),
               db, 0)
            else
              match api.get_repo_info with
              | none =>
                (mkFail project_id project.name
                  ("Repository not found or inaccessible: " ++ remote_info.owner
                    ++ "/" ++ remote_info.repo_name), db, 1)
              | some repo_info =>
                let pr_count := api.get_open_prs_count
                let sm := save_remote_metrics db remote_info.id
                            (repoInfoToMetrics repo_info pr_count) now
                if sm.1 = false then
                  (mkFail project_id project.name "Failed to save metrics to cache",
                   sm.2, 2)
                else
                  let wsdb : Option String × DBState :=
                    match api.get_latest_workflow_status with
                    | some workflow_data =>
                      (workflow_data.conclusion,
                       (save_pipeline_status sm.2 remote_info.id workflow_data now).2)
                    | none => (none, sm.2)
                  let db2 :=
                    if update_metadata then
                      (update_project_from_remote_metadata wsdb.2 project_id
                        repo_info.description repo_info.language repo_info.topics).2
                    else wsdb.2
                  let db3 := update_last_synced db2 remote_info.id now
                  ({ success := true
                     project_id := project_id
                     project_name := project.name
                     stars := some repo_info.stars
                     forks := some repo_info.forks
                     open_issues := some repo_info.open_issues
                     open_prs := some pr_count
                     workflow_status := wsdb.1 }, db3, 3)

/-- The `for item in batch` loop of `process_sync_queue`: mark the item
`processing`, run `sync_project(item.project_id, force=True)`, mark
`completed` or `failed` from the result's success flag, and accumulate the
processed count and the total number of API calls. -/
def processQueueItems (api : ApiBehavior) (tokens : String → Option String)
    (now : Nat) :
    List SyncQueueItem → DBState → Nat → Nat → Nat × DBState × Nat
  | [], db, processed, api_calls => (processed, db, api_calls)
  | item :: rest, db, processed, api_calls =>
    let db1 := mark_processing db item.id
    let so := sync_project api tokens db1 item.project_id false true now
    let db2 := if so.1.success then mark_completed so.2.1 item.id
               else mark_failed so.2.1 item.id
    processQueueItems api tokens now rest db2 (processed + 1) (api_calls + so.2.2)

/-- `SyncOrchestrator.process_sync_queue(platform, batch_size=10)`: pull a
rate-limit-bounded batch, process each item, return the processed count —
together with the final limiter dictionary, the final database state and
the total number of `RemoteAPI` calls the run dispatched. -/
def process_sync_queue (api : ApiBehavior) (tokens : String → Option String)
    (s : SyncQueueState) (db : DBState) (platform : String) (now : Nat)
    (batch_size : Nat := 10) : Nat × SyncQueueState × DBState × Nat :=
  let gb := get_next_batch s db platform now batch_size
  if gb.1.isEmpty then (0, gb.2, db, 0)
  else
    let pr := processQueueItems api tokens now gb.1 db 0 0
    (pr.1, gb.2, pr.2.1, pr.2.2)

/-! ## Auxiliary definitions for the verification -/

/-- The batch ordering transported to the returned `SyncQueueItem`s:
priority ascending, then `requested_at` ascending. -/
def itemLE (a b : SyncQueueItem) : Prop :=
  a.priority < b.priority ∨
    (a.priority = b.priority ∧ a.requested_at ≤ b.requested_at)

/-- The claimed reading of `get_reset_time`, following the spec's words
("earliest timestamp in the window, plus W"): the earliest recorded
timestamp lying inside the current window, plus the window length.  This is
the definition the code is compared against; it is NOT what the source
computes. -/
def get_reset_time_claimed (rl : RateLimiter) (now : Nat) : Option Nat :=
  match limits rl.platform with
  | none => none
  | some (_, w) =>
    let inWindow := rl.calls.filter
      (fun (c : Nat) => decide ((c : Int) > (now : Int) - (w : Int)))
    if inWindow.isEmpty then none
    else some (listMin inWindow + w)

/-! ## Concrete fixtures used by witnesses and counterexamples -/

/-- A project row. -/
def projW : ProjectRow := { id := 1, name := "alpha", description := none, language := none }

/-- A sync-enabled github link for `projW`. -/
def linkW : RemoteRepoRow :=
  { id := 1, project_id := 1, platform := "github", owner := "acme"
    repo_name := "widget", remote_url := none, default_branch := none
    last_synced_at := none, sync_enabled := true }

/-- A pending queue row for `projW`. -/
def queueRowW : QueueRow :=
  { id := 1, project_id := 1, priority := 5, requested_at := 100, status := "pending" }

/-- A database with one project, one enabled link and one pending queue
item, and an empty metrics cache. -/
def dbQ : DBState :=
  { projects := [projW], tags := [], remote_repos := [linkW]
    metrics_cache := [], pipeline_status := [], sync_queue := [queueRowW]
    next_metrics_id := 1, next_pipeline_id := 1, next_queue_id := 2 }

/-- A repository-metadata dict as returned by `RemoteAPI.get_repo_info`. -/
def repoInfoW : RepoInfoDict :=
  { owner := "acme", name := "widget", description := "demo"
    stars := 42, forks := 7, watchers := 42, open_issues := 3
    language := "Python", size_kb := 10, default_branch := "main"
    license := none, topics := [], created_at := none, updated_at := none
    pushed_at := none, homepage := "", archived := false, isPrivate := false }

/-- A workflow-status dict. -/
def wfW : WorkflowData :=
  { name := "CI", status := some "completed", conclusion := some "success"
    branch := some "main", commit_sha := some "abc123", started_at := none
    completed_at := none, url := none }

/-- An API behaviour performing three successful fetches. -/
def apiW : ApiBehavior :=
  { get_repo_info := some repoInfoW, get_open_prs_count := 2
    get_latest_workflow_status := some wfW }

/-- A credential store holding a github token. -/
def tokensW : String → Option String :=
  fun p => if p = "github" then some "tok" else none

/-- A fresh `SyncQueue` object: no rate limiters created yet. -/
def qs0 : SyncQueueState := { rate_limiters := [] }

/-- A cached metrics row for `linkW`, cached at t = 1000. -/
def rowC : MetricsRow :=
  { id := 1, remote_repo_id := 1, stars := 42, forks := 7, watchers := 42
    open_issues := 3, open_prs := 2, language := some "Python", size_kb := 10
    license := none, description := none, topics := [], created_at := none
    updated_at := none, pushed_at := none, cached_at := some 1000 }

/-- A database with one project, one enabled link and a cached metrics
snapshot. -/
def dbC : DBState :=
  { projects := [projW], tags := [], remote_repos := [linkW]
    metrics_cache := [rowC], pipeline_status := [], sync_queue := []
    next_metrics_id := 2, next_pipeline_id := 1, next_queue_id := 1 }

/-- A github limiter whose call list holds one timestamp that has left the
current window (0) and one inside it (5000), as arises when
`record_request` ran long ago and no pruning method was called since. -/
def rl9 : RateLimiter := { platform := "github", calls := [0, 5000] }

/-- Collaborator behaviour where the initial `db.get_project_by_id` lookup
itself raises (e.g. a locked SQLite file); every later collaborator is
benign. -/
def collabDbDown : Collab :=
  { get_project_by_id := .error (.other "database is locked")
    get_remote_repo_info := .ok none
    get_remote_metrics := .ok none
    get_token := .ok none
    api_init := .ok ()
    get_repo_info := .ok none
    get_open_prs_count := .ok 0
    save_remote_metrics := .ok true
    get_latest_workflow_status := .ok none
    save_pipeline_status := .ok true
    update_project_from_remote_metadata := .ok true
    update_last_synced := .ok () }

/-- Collaborator behaviour where the project lookup succeeds and the first
call inside the `try` block raises. -/
def collabTryFails : Collab :=
  { get_project_by_id := .ok (some projW)
    get_remote_repo_info := .error (.other "disk failure")
    get_remote_metrics := .ok none
    get_token := .ok none
    api_init := .ok ()
    get_repo_info := .ok none
    get_open_prs_count := .ok 0
    save_remote_metrics := .ok true
    get_latest_workflow_status := .ok none
    save_pipeline_status := .ok true
    update_project_from_remote_metadata := .ok true
    update_last_synced := .ok () }

/-- An SDK behaviour whose repository fetch and PR listing raise
`GithubException`s. -/
def sdkBoom : SdkBehavior :=
  { get_repo := .error (.github "404 Not Found")
    get_topics := .ok []
    pulls_totalCount := .error (.github "500 Server Error")
    get_workflow_runs := .ok [] }

/-! ## Helper lemmas -/

/-- Every item produced by `get_next_batch`'s SELECT comes from a `pending`
queue row whose project joins to a sync-enabled link for the platform. -/
theorem selectPendingBatch_mem (db : DBState) (platform : String) (n : Nat)
    (it : SyncQueueItem) (hit : it ∈ selectPendingBatch db platform n) :
    it.status = "pending" ∧
    ∃ p ∈ db.projects, p.id = it.project_id ∧
      ∃ r ∈ db.remote_repos, r.project_id = p.id ∧ r.platform = platform ∧
        r.sync_enabled = true := by
  simp only [selectPendingBatch, List.mem_map] at hit
  obtain ⟨row, hrow, hconv⟩ := hit
  have hrow2 : row ∈ (db.sync_queue.filter
      (queueRowMatches db platform)).insertionSort batchLE :=
    List.take_subset _ _ hrow
  have hrow3 : row ∈ db.sync_queue.filter (queueRowMatches db platform) :=
    (List.perm_insertionSort _ _).mem_iff.mp hrow2
  have hmatch : queueRowMatches db platform row = true :=
    List.of_mem_filter hrow3
  simp only [queueRowMatches, Bool.decide_and, Bool.and_eq_true,
    decide_eq_true_eq, List.any_eq_true] at hmatch
  subst hconv
  obtain ⟨hst, p, hp, hpid, r, hr, hrp, hrplat, hren⟩ := hmatch
  exact ⟨hst, p, hp, hpid.symm ▸ rfl, r, hr, hrp, hrplat, hren⟩

/-- The SELECT's `LIMIT n` bounds the batch length. -/
theorem selectPendingBatch_length (db : DBState) (platform : String) (n : Nat) :
    (selectPendingBatch db platform n).length ≤ n := by
  simp only [selectPendingBatch, List.length_map, List.length_take]
  exact min_le_left _ _

/-- The SELECT's `ORDER BY` sorts the batch by priority then request
time. -/
theorem selectPendingBatch_sorted (db : DBState) (platform : String) (n : Nat) :
    List.Sorted itemLE (selectPendingBatch db platform n) := by
  have h1 : List.Sorted batchLE ((db.sync_queue.filter
      (queueRowMatches db platform)).insertionSort batchLE) :=
    List.sorted_insertionSort _ _
  have h2 : List.Sorted batchLE (((db.sync_queue.filter
      (queueRowMatches db platform)).insertionSort batchLE).take n) :=
    h1.sublist (List.take_sublist _ _)
  exact List.pairwise_map.mpr (h2.imp (fun hab => hab))

/-- On a cache hit (`force = false`, enabled link, unexpired snapshot),
`sync_project` returns the cached-data result, the untouched database
state, and an API-call count of zero. -/
theorem sync_project_cache_hit_eq (api : ApiBehavior)
    (tokens : String → Option String) (db : DBState) (pid : Nat) (um : Bool)
    (now : Nat) (project : ProjectRow) (ri : RemoteRepoRow) (row : MetricsRow)
    (c : Nat)
    (hp : get_project_by_id db pid = some project)
    (hr : get_remote_repo_info db pid = some ri)
    (hen : ri.sync_enabled = true)
    (hrow : (db.metrics_cache.filter
        (fun r => r.remote_repo_id = ri.id)).head? = some row)
    (hc : row.cached_at = some c)
    (hfresh : (now : Int) - c < 24 * 3600) :
    sync_project api tokens db pid um false now =
      ({ success := true
         project_id := pid
         project_name := project.name
         stars := some row.stars
         forks := some row.forks
         open_issues := some row.open_issues
         open_prs := some row.open_prs
         error := some "Using cached data (use --force to refresh)" },
       db, 0) := by
  have hage : ¬((now : Int) - c > (24 : Int) * 3600) := by omega
  have hcm : get_remote_metrics db ri.id now 24 = some (rowToDict row) := by
    simp only [get_remote_metrics, hrow, hc]
    simp only [ite_eq_right_iff]
    intro hgt
    omega
  simp [sync_project, hp, hr, hen, hcm, rowToDict]

/-! ## Claim theorems -/

/-- C1, counterexample.  The claim says `sync_project` never propagates an
exception for ANY behaviour of the database collaborators; but the
`db.get_project_by_id` call sits before the `try` block (the `except`
handlers need `project.name`), so a database exception raised there — here
a locked database file — propagates to the caller instead of being turned
into a `SyncResult`. -/
theorem sync_projectE_db_exception_propagates :
    sync_projectE collabDbDown 1 false false =
      .error (.other "database is locked") := rfl

/-- C1, amended.  Provided the initial `db.get_project_by_id` lookup does
not itself raise, `sync_project` always returns a `SyncResult` (it never
propagates an exception), and whenever the `try` body raises, the returned
result is the failed one whose error string carries the exception's message
(prefixed `GitHub API error:` for `GithubException`, `Unexpected error:`
otherwise). -/
theorem sync_projectE_error_boundary (c : Collab) (pid : Nat) (um f : Bool)
    (p? : Option ProjectRow) (h : c.get_project_by_id = .ok p?) :
    (∃ r, sync_projectE c pid um f = .ok r) ∧
    (∀ project e, p? = some project →
      sync_project_try c project pid um f = .error e →
      sync_projectE c pid um f = .ok (mkFail pid project.name (exnText e))) := by
  constructor
  · cases p? with
    | none =>
      exact ⟨mkFail pid "Unknown" "Project not found", by simp [sync_projectE, h]⟩
    | some project =>
      exact ⟨syncTryHandler pid project.name
        (sync_project_try c project pid um f), by simp [sync_projectE, h]⟩
  · intro project e hp herr
    subst hp
    simp [sync_projectE, h, syncTryHandler, herr]

/-- C1, witness: with a healthy project lookup and a `try` body that raises
on its first database call, the orchestrator returns the failed result
carrying the exception's message. -/
theorem sync_projectE_error_boundary_witness :
    sync_projectE collabTryFails 1 false false =
      .ok (mkFail 1 "alpha" "Unexpected error: disk failure") :=
  (sync_projectE_error_boundary collabTryFails 1 false false (some projW)
    rfl).2 projW (.other "disk failure") rfl rfl

/-- C2.  On a cache hit — the project and its sync-enabled link exist, the
call is not forced, and the metrics cache holds a snapshot younger than 24
hours — `sync_project` returns success with the cached stars / forks /
open-issues / open-PR values, the informational "Using cached data" note,
and an API-call count of zero. -/
theorem sync_project_cache_hit_result (api : ApiBehavior)
    (tokens : String → Option String) (db : DBState) (pid : Nat) (um : Bool)
    (now : Nat) (project : ProjectRow) (ri : RemoteRepoRow) (row : MetricsRow)
    (c : Nat)
    (hp : get_project_by_id db pid = some project)
    (hr : get_remote_repo_info db pid = some ri)
    (hen : ri.sync_enabled = true)
    (hrow : (db.metrics_cache.filter
        (fun r => r.remote_repo_id = ri.id)).head? = some row)
    (hc : row.cached_at = some c)
    (hfresh : (now : Int) - c < 24 * 3600) :
    (sync_project api tokens db pid um false now).1 =
      { success := true
        project_id := pid
        project_name := project.name
        stars := some row.stars
        forks := some row.forks
        open_issues := some row.open_issues
        open_prs := some row.open_prs
        error := some "Using cached data (use --force to refresh)" } ∧
    (sync_project api tokens db pid um false now).2.2 = 0 := by
  have h := sync_project_cache_hit_eq api tokens db pid um now project ri row c
    hp hr hen hrow hc hfresh
  exact ⟨by rw [h], by rw [h]⟩

/-- C2, witness: a snapshot with 42 stars cached 2 hours ago is served from
cache with the informational note and zero API calls. -/
theorem sync_project_cache_hit_result_witness :
    (sync_project apiW tokensW dbC 1 false false 8200).1 =
      { success := true, project_id := 1, project_name := "alpha"
        stars := some 42, forks := some 7, open_issues := some 3
        open_prs := some 2
        error := some "Using cached data (use --force to refresh)" } ∧
    (sync_project apiW tokensW dbC 1 false false 8200).2.2 = 0 := by
  have h := sync_project_cache_hit_result apiW tokensW dbC 1 false 8200 projW
    linkW rowC 1000 rfl rfl rfl rfl rfl (by decide)
  exact ⟨h.1, h.2⟩

/-- C3.  The spec requires exactly one `record_request` call on the
platform's limiter per external API call dispatched during queue
processing; the source never calls `record_request` anywhere, so the
limiter's timestamp list does not grow.  Concretely: processing one queued
item dispatches 3 API calls (`get_repo_info`, `get_open_prs_count`,
`get_latest_workflow_status`), yet the github limiter's call list is still
empty afterwards — it grew by 0, not by 3. -/
theorem process_sync_queue_records_no_requests :
    (process_sync_queue apiW tokensW qs0 dbQ "github" 1000 10).1 = 1 ∧
    (process_sync_queue apiW tokensW qs0 dbQ "github" 1000 10).2.2.2 = 3 ∧
    (process_sync_queue apiW tokensW qs0 dbQ "github" 1000 10).2.1.rate_limiters.map
      (fun p => (p.1, p.2.calls)) = [("github", [])] := by
  refine ⟨rfl, rfl, rfl⟩

/-- C4.  `get_next_batch` returns the empty list when the limiter reports
no headroom or when `min(batch_size, remaining - 100) ≤ 0`; otherwise it
returns at most that many items (and never more than `batch_size`), every
returned item is a pending queue row whose project has a sync-enabled link
for the platform, and the list is ordered by priority ascending then
`requested_at` ascending. -/
theorem get_next_batch_spec (s : SyncQueueState) (db : DBState)
    (platform : String) (now batch_size : Nat) :
    ((can_make_request (getRateLimiterFor s platform).1 now).1 = false →
      (get_next_batch s db platform now batch_size).1 = []) ∧
    ((min (batch_size : Int)
        ((get_remaining (can_make_request (getRateLimiterFor s platform).1 now).2
          now).1 - 100)) ≤ 0 →
      (get_next_batch s db platform now batch_size).1 = []) ∧
    ((get_next_batch s db platform now batch_size).1.length ≤
      (min (batch_size : Int)
        ((get_remaining (can_make_request (getRateLimiterFor s platform).1 now).2
          now).1 - 100)).toNat ∧
     (get_next_batch s db platform now batch_size).1.length ≤ batch_size) ∧
    (∀ it ∈ (get_next_batch s db platform now batch_size).1,
      it.status = "pending" ∧
      ∃ p ∈ db.projects, p.id = it.project_id ∧
        ∃ r ∈ db.remote_repos, r.project_id = p.id ∧ r.platform = platform ∧
          r.sync_enabled = true) ∧
    List.Sorted itemLE (get_next_batch s db platform now batch_size).1 := by
  simp only [get_next_batch]
  by_cases h1 : (can_make_request (getRateLimiterFor s platform).1 now).1 = false
  · rw [if_pos h1]
    simp [List.Sorted]
  · rw [if_neg h1]
    by_cases h2 : (min (batch_size : Int)
        ((get_remaining (can_make_request (getRateLimiterFor s platform).1 now).2
          now).1 - 100)) ≤ 0
    · rw [if_pos h2]
      simp [List.Sorted]
    · rw [if_neg h2]
      refine ⟨fun hcontra => absurd hcontra h1, fun hcontra => absurd hcontra h2,
        ⟨selectPendingBatch_length db platform _, ?_⟩,
        fun it hit => selectPendingBatch_mem db platform _ it hit,
        selectPendingBatch_sorted db platform _⟩
      calc (selectPendingBatch db platform (min (batch_size : Int)
            ((get_remaining (can_make_request (getRateLimiterFor s platform).1 now).2
              now).1 - 100)).toNat).length
          ≤ (min (batch_size : Int)
            ((get_remaining (can_make_request (getRateLimiterFor s platform).1 now).2
              now).1 - 100)).toNat := selectPendingBatch_length db platform _
        _ ≤ batch_size := by
            have h3 : (min (batch_size : Int)
              ((get_remaining (can_make_request (getRateLimiterFor s platform).1 now).2
                now).1 - 100)) ≤ (batch_size : Int) := min_le_left _ _
            omega

/-- C4, witness: with `batch_size = 0` the computed fetch count is 0, so
the batch is empty even though a pending item exists. -/
theorem get_next_batch_spec_witness :
    (get_next_batch qs0 dbQ "github" 1000 0).1 = [] :=
  (get_next_batch_spec qs0 dbQ "github" 1000 0).2.1 (by decide)

/-- C5.  No `RemoteAPI` method lets a platform exception escape: for every
platform and every SDK behaviour, `get_repo_info`, `get_open_prs_count` and
`get_latest_workflow_status` all return normally; when the SDK repo fetch
raises, they return their absent/failed sentinels (`None`, `0`, `None`),
and a failing PR listing also yields `0`. -/
theorem remote_api_error_boundary (platform : String) (sdk : SdkBehavior)
    (owner repo_name : String) (e e2 : Exn) :
    (∃ v, RemoteAPI.get_repo_info platform sdk owner repo_name = .ok v) ∧
    (∃ n, RemoteAPI.get_open_prs_count platform sdk owner repo_name = .ok n) ∧
    (∃ v, RemoteAPI.get_latest_workflow_status platform sdk owner repo_name
      = .ok v) ∧
    (sdk.get_repo = .error e →
      RemoteAPI.get_repo_info platform sdk owner repo_name = .ok none ∧
      RemoteAPI.get_open_prs_count platform sdk owner repo_name = .ok 0 ∧
      RemoteAPI.get_latest_workflow_status platform sdk owner repo_name
        = .ok none) ∧
    (sdk.pulls_totalCount = .error e2 →
      RemoteAPI.get_open_prs_count platform sdk owner repo_name = .ok 0) := by
  refine ⟨⟨_, rfl⟩, ⟨_, rfl⟩, ⟨_, rfl⟩, ?_, ?_⟩
  · intro he
    by_cases hp : platform = "github" <;>
      simp [RemoteAPI.get_repo_info, RemoteAPI.get_open_prs_count,
        RemoteAPI.get_latest_workflow_status, hp, he, bind, Except.bind,
        pure, Except.pure]
  · intro he2
    by_cases hp : platform = "github"
    · cases hr : sdk.get_repo <;>
        simp [RemoteAPI.get_open_prs_count, hp, hr, he2, bind, Except.bind,
          pure, Except.pure]
    · simp [RemoteAPI.get_open_prs_count, hp, pure, Except.pure]

/-- C5, witness: with an SDK that raises `GithubException` on the repo
fetch and the PR listing, all three methods return their sentinels. -/
theorem remote_api_error_boundary_witness :
    RemoteAPI.get_repo_info "github" sdkBoom "acme" "widget" = .ok none ∧
    RemoteAPI.get_open_prs_count "github" sdkBoom "acme" "widget" = .ok 0 ∧
    RemoteAPI.get_latest_workflow_status "github" sdkBoom "acme" "widget"
      = .ok none :=
  (remote_api_error_boundary "github" sdkBoom "acme" "widget"
    (.github "404 Not Found") (.github "500 Server Error")).2.2.2.1 rfl

/-- C6.  `save_remote_metrics` replaces rather than merges: a save reports
success, afterwards exactly one cached row exists for the link — the row
built solely from this call's metrics argument (absent fields filled with
the source's defaults) — and rows of other links are untouched. -/
theorem save_remote_metrics_replace (db : DBState) (rid : Nat)
    (m : MetricsInput) (now : Nat) :
    (save_remote_metrics db rid m now).1 = true ∧
    ((save_remote_metrics db rid m now).2.metrics_cache.filter
        (fun r => r.remote_repo_id = rid))
      = [mkMetricsRow db.next_metrics_id rid m now] ∧
    ((save_remote_metrics db rid m now).2.metrics_cache.filter
        (fun r => r.remote_repo_id ≠ rid))
      = db.metrics_cache.filter (fun r => r.remote_repo_id ≠ rid) := by
  refine ⟨rfl, ?_, ?_⟩
  · simp only [save_remote_metrics, List.filter_append, List.filter_filter]
    simp [mkMetricsRow, List.filter_eq_nil_iff]
  · simp only [save_remote_metrics, List.filter_append, List.filter_filter]
    simp [mkMetricsRow]

/-- C7.  `get_remote_metrics` returns `None` when no snapshot row exists
for the link, returns `None` when `now - cached_at` strictly exceeds the
TTL, and otherwise returns the stored fields; expiry is a read-time
judgment — it does not delete the row, so the same state read with a large
enough TTL still yields the fields. -/
theorem get_remote_metrics_ttl_spec (db : DBState) (rid : Nat) (now c : Nat)
    (ttl ttl2 : Nat) (row : MetricsRow) :
    ((db.metrics_cache.filter (fun r => r.remote_repo_id = rid)).head? = none →
      get_remote_metrics db rid now ttl = none) ∧
    ((db.metrics_cache.filter (fun r => r.remote_repo_id = rid)).head? = some row →
      row.cached_at = some c →
      ((now : Int) - c > (ttl : Int) * 3600 →
        get_remote_metrics db rid now ttl = none) ∧
      (¬((now : Int) - c > (ttl : Int) * 3600) →
        get_remote_metrics db rid now ttl = some (rowToDict row)) ∧
      (¬((now : Int) - c > (ttl2 : Int) * 3600) →
        get_remote_metrics db rid now ttl2 = some (rowToDict row))) := by
  constructor
  · intro h
    simp only [get_remote_metrics, h]
  · intro h hc
    refine ⟨?_, ?_, ?_⟩ <;> intro hage <;> simp only [get_remote_metrics, h, hc] <;>
      simp [hage]

/-- C7, witness: a snapshot cached at t = 1000 is served 59 minutes later
with a 1-hour TTL, treated as absent 61 minutes later, and still served at
61 minutes with a 24-hour TTL (the row was not deleted). -/
theorem get_remote_metrics_ttl_spec_witness :
    get_remote_metrics dbC 1 4540 1 = some (rowToDict rowC) ∧
    get_remote_metrics dbC 1 4660 1 = none ∧
    get_remote_metrics dbC 1 4660 24 = some (rowToDict rowC) := by
  refine ⟨?_, ?_, ?_⟩
  · exact ((get_remote_metrics_ttl_spec dbC 1 4540 1000 1 1 rowC).2 rfl rfl).2.1
      (by decide)
  · exact ((get_remote_metrics_ttl_spec dbC 1 4660 1000 1 1 rowC).2 rfl rfl).1
      (by decide)
  · exact ((get_remote_metrics_ttl_spec dbC 1 4660 1000 1 24 rowC).2 rfl rfl).2.2
      (by decide)

/-- C8.  `add_to_queue` is idempotent while a pending item exists: if a
pending row for the project exists it returns that row's id and changes
nothing; otherwise it inserts exactly one new pending row with the given
priority and returns its id; two successive calls return the same id and
leave the state of the first call unchanged; and the at-most-one-pending
invariant is preserved. -/
theorem add_to_queue_idempotent (db : DBState) (pid : Nat) (pr pr2 : Int)
    (now now2 : Nat) :
    (∀ q, (db.sync_queue.filter (fun x =>
        x.project_id = pid ∧ x.status = "pending")).head? = some q →
      add_to_queue db pid pr now = (q.id, db)) ∧
    ((db.sync_queue.filter (fun x =>
        x.project_id = pid ∧ x.status = "pending")).head? = none →
      add_to_queue db pid pr now =
        (db.next_queue_id,
         { db with
            sync_queue := db.sync_queue ++
              [{ id := db.next_queue_id, project_id := pid, priority := pr,
                 requested_at := now, status := "pending" }]
            next_queue_id := db.next_queue_id + 1 })) ∧
    (add_to_queue (add_to_queue db pid pr now).2 pid pr2 now2
      = ((add_to_queue db pid pr now).1, (add_to_queue db pid pr now).2)) ∧
    ((db.sync_queue.filter (fun x =>
        x.project_id = pid ∧ x.status = "pending")).length ≤ 1 →
      ((add_to_queue db pid pr now).2.sync_queue.filter (fun x =>
        x.project_id = pid ∧ x.status = "pending")).length ≤ 1) := by
  refine ⟨?_, ?_, ?_, ?_⟩
  · intro q hq
    simp only [add_to_queue, hq]
  · intro h
    simp only [add_to_queue, h]
  · cases hh : (db.sync_queue.filter (fun x =>
        x.project_id = pid ∧ x.status = "pending")).head? with
    | some q =>
      simp only [add_to_queue, hh]
    | none =>
      have hnil : db.sync_queue.filter (fun x =>
          x.project_id = pid ∧ x.status = "pending") = [] :=
        List.head?_eq_none_iff.mp hh
      have hfind : db.sync_queue.find? (fun x =>
          decide (x.project_id = pid) && decide (x.status = "pending")) = none := by
        rw [List.find?_eq_none]
        intro x hx
        have := (List.filter_eq_nil_iff.mp hnil) x hx
        simpa using this
      simp only [add_to_queue, hh, List.filter_append, hnil]
      simp [hfind]
  · intro hlen
    cases hh : (db.sync_queue.filter (fun x =>
        x.project_id = pid ∧ x.status = "pending")).head? with
    | some q =>
      simpa only [add_to_queue, hh] using hlen
    | none =>
      have hnil : db.sync_queue.filter (fun x =>
          x.project_id = pid ∧ x.status = "pending") = [] :=
        List.head?_eq_none_iff.mp hh
      simp only [add_to_queue, hh, List.filter_append, hnil]
      simp
      intro a ha hpid
      have := (List.filter_eq_nil_iff.mp hnil) a ha
      simp [hpid] at this
      exact this

/-- C8, witness: re-enqueueing a project whose pending item exists returns
the existing id (1) and leaves the database unchanged, and the
two-successive-calls instance returns the same id and state. -/
theorem add_to_queue_idempotent_witness :
    add_to_queue dbQ 1 5 200 = (1, dbQ) ∧
    add_to_queue (add_to_queue dbQ 1 5 200).2 1 7 300
      = ((add_to_queue dbQ 1 5 200).1, (add_to_queue dbQ 1 5 200).2) := by
  have h := add_to_queue_idempotent dbQ 1 5 7 200 300
  exact ⟨h.1 queueRowW rfl, h.2.2.1⟩

/-- C9, counterexample.  The claim says `get_reset_time` returns the
earliest recorded timestamp that lies inside the current window, plus W;
but the source takes `min(self.calls)` without pruning, so a stale
timestamp outside the window can be chosen.  For a github limiter with
calls at 0 and 5000 and current time 5000 (window 3600s, so only 5000 is
inside the window), the source returns 0 + 3600 = 3600 while the claimed
reading returns 5000 + 3600 = 8600. -/
theorem get_reset_time_window_counterexample :
    get_reset_time rl9 = .ok (some 3600) ∧
    get_reset_time_claimed rl9 5000 = some 8600 ∧
    (3600 : Nat) ≠ 8600 := by
  refine ⟨rfl, rfl, by decide⟩

/-- C9, amended.  For a platform with configured limits, `get_reset_time`
returns `None` when no calls are recorded, and otherwise the earliest
timestamp among ALL recorded calls — whether or not it still lies inside
the current window — plus the window length. -/
theorem get_reset_time_all_calls (rl : RateLimiter) (q w : Nat)
    (h : limits rl.platform = some (q, w)) :
    (rl.calls = [] → get_reset_time rl = .ok none) ∧
    (rl.calls ≠ [] → get_reset_time rl = .ok (some (listMin rl.calls + w))) := by
  constructor
  · intro hc
    simp [get_reset_time, hc]
  · intro hc
    simp [get_reset_time, h, List.isEmpty_iff, hc]

/-- C9, witness: a github limiter with one call at t = 50 resets at
50 + 3600 = 3650. -/
theorem get_reset_time_all_calls_witness :
    get_reset_time { platform := "github", calls := [50] } = .ok (some 3650) :=
  (get_reset_time_all_calls { platform := "github", calls := [50] } 5000 3600
    rfl).2 (by decide)

/-- C10.  The cache-hit path performs no writes: under the same hypotheses
as the cache-hit claim, the database state after `sync_project` — links
(including `last_synced_at`), metrics cache, pipeline status and sync-queue
rows — is exactly the state before the call. -/
theorem sync_project_cache_hit_frame (api : ApiBehavior)
    (tokens : String → Option String) (db : DBState) (pid : Nat) (um : Bool)
    (now : Nat) (project : ProjectRow) (ri : RemoteRepoRow) (row : MetricsRow)
    (c : Nat)
    (hp : get_project_by_id db pid = some project)
    (hr : get_remote_repo_info db pid = some ri)
    (hen : ri.sync_enabled = true)
    (hrow : (db.metrics_cache.filter
        (fun r => r.remote_repo_id = ri.id)).head? = some row)
    (hc : row.cached_at = some c)
    (hfresh : (now : Int) - c < 24 * 3600) :
    (sync_project api tokens db pid um false now).2.1 = db := by
  rw [sync_project_cache_hit_eq api tokens db pid um now project ri row c
    hp hr hen hrow hc hfresh]

/-- C10, witness: the concrete cache-hit call leaves the database exactly
as it was. -/
theorem sync_project_cache_hit_frame_witness :
    (sync_project apiW tokensW dbC 1 false false 8200).2.1 = dbC :=
  sync_project_cache_hit_frame apiW tokensW dbC 1 false 8200 projW linkW rowC
    1000 rfl rfl rfl rfl rfl (by decide)

end ProjectCli
